import Mathlib

/-!
Shallow embedding of `pyop2/gpu/tile.py` (PyOP2 GPU tiling transformation and
autotuner).

Conventions used throughout:
* Python non-negative integers are modelled as `ℕ`; every integer quantity the
  module computes with (cell counts, thread counts, tile lengths, loop extents)
  is non-negative in all uses.
* Python float arithmetic on values that are exact small rationals is modelled
  in `ℚ` (the literal `8e-3` becomes `8/1000`, `0.2` becomes `1/5`); the
  claims settled here are structural (branching, ordering, zero tests on
  products of non-negative factors) and do not depend on sub-ulp rounding.
* `math.ceil(a/b)`, `math.floor`, `//` and `%` on non-negative integers are
  modelled by `cdiv`, `Int.floor`, `Nat.div` and `Nat.mod`.
* Fallible Python code is modelled with `Except`/`Option`; `float("inf")` as
  returned by `AutoTiler.estimated_exec_time` is modelled as `none`.
-/

/-- Ceiling division on naturals: model of `math.ceil(a/b)` for `a b : ℕ`,
`b > 0` (`tile.py` applies it only to positive denominators). -/
def cdiv (a b : ℕ) : ℕ := (a + b - 1) / b

/-- Ceiling of the square root: model of `math.ceil(math.sqrt(n))`. -/
def csqrt (n : ℕ) : ℕ := if Nat.sqrt n * Nat.sqrt n = n then Nat.sqrt n else Nat.sqrt n + 1

/-- `WARP_SIZE = 32` (tile.py line 636). -/
def WARP_SIZE : ℕ := 32

/-- The record held by `pyop2.gpu.tile.TilingConfiguration` (tile.py lines
13-65): six integer dimensions and six staging flags, stored verbatim by
`ImmutableRecord.__init__`. -/
structure TilingConfiguration where
  ncells_per_block : ℕ
  nthreads_per_cell : ℕ
  matvec1_row_tile_length : ℕ
  matvec1_col_tile_length : ℕ
  matvec2_row_tile_length : ℕ
  matvec2_col_tile_length : ℕ
  load_coordinates_to_shared : Bool
  load_input_to_shared : Bool
  load_mats_to_shared : Bool
  load_quad_weights_to_shared : Bool
  tiled_prefetch_of_inputs : Bool
  tiled_prefetch_of_quad_weights : Bool
deriving DecidableEq

/-- Modelled from the spec: the error taxonomy names a `ConfigurationError`
raised for an invalid `TilingConfiguration` field.  No such class (and no
validation) exists anywhere in `tile.py`; the type is introduced only so that
the possibility of a construction failure is representable. -/
inductive ConfigurationError
  | invalidField
deriving DecidableEq

/-- Model of `TilingConfiguration.__init__` (tile.py lines 42-65).  The source
merely forwards every argument to `ImmutableRecord.__init__`, which stores the
attributes; there is no validation of any kind, so construction always
succeeds and records the fields verbatim. -/
def TilingConfiguration.init (nc nt t1_r t1_c t2_r t2_c : ℕ)
    (lcoords linput lmats lqw tpi tpqw : Bool) :
    Except ConfigurationError TilingConfiguration :=
  Except.ok ⟨nc, nt, t1_r, t1_c, t2_r, t2_c, lcoords, linput, lmats, lqw, tpi, tpqw⟩

/-- Kernel-shape parameters of `pyop2.gpu.tile.AutoTiler` (tile.py lines
639-696): the cached properties `nbasis`, `nquad`, `num_const_matrices`,
`num_func_eval_vars` — all derived once from the FEM program — together with
the constructor argument `num_candidate_knls`. -/
structure AutoTiler where
  nbasis : ℕ
  nquad : ℕ
  num_const_matrices : ℕ
  num_func_eval_vars : ℕ
  num_candidate_knls : ℕ
deriving DecidableEq

/-- `AutoTiler.get_local_barriers` (tile.py lines 698-705):
`ceil(nquad/t1_r)*ceil(nbasis/t1_c) + ceil(nbasis/t2_r)*ceil(nquad/t2_c)`. -/
def get_local_barriers (a : AutoTiler) (t1_r t1_c t2_r t2_c : ℕ) : ℕ :=
  cdiv a.nquad t1_r * cdiv a.nbasis t1_c + cdiv a.nbasis t2_r * cdiv a.nquad t2_c

/-- `AutoTiler.theoretical_warps_per_sm` (tile.py lines 707-734).
`shared_usage` is the double count scaled by `8e-3` (KB); `blocks_per_sm =
min(96//shared_usage if shared_usage < 48 else 0, 32)`; `warps_per_block =
floor(threads_per_cell*cells_per_block/32)`. -/
def theoretical_warps_per_sm (a : AutoTiler) (c : TilingConfiguration) : ℚ :=
  let cells_per_block := c.ncells_per_block
  let threads_per_cell := c.nthreads_per_cell
  let t1_r := c.matvec1_row_tile_length
  let t1_c := c.matvec1_col_tile_length
  let t2_r := c.matvec2_row_tile_length
  let t2_c := c.matvec2_col_tile_length
  let shared_usage : ℚ :=
    ((a.num_const_matrices * max (t1_r * t1_c) (t2_r * t2_c)
      + a.nquad
      + a.num_func_eval_vars * a.nquad * cells_per_block : ℕ) : ℚ) * (8 / 1000)
  let warps_per_block : ℕ := threads_per_cell * cells_per_block / 32
  let blocks_per_sm : ℤ :=
    min (if shared_usage < 48 then ⌊(96 : ℚ) / shared_usage⌋ else 0) 32
  (blocks_per_sm : ℚ) * (warps_per_block : ℕ)

/-- The warp-fill ratio computed inside `AutoTiler.get_work_efficiency`
(tile.py lines 760-762): `threads_in_block / (threads_in_block + (WARP_SIZE -
threads_in_block % WARP_SIZE))`.  Note the padding term `WARP_SIZE -
threads_in_block % WARP_SIZE` is `WARP_SIZE` (not `0`) whenever
`threads_in_block` is an exact multiple of the warp size. -/
def warp_mismatch_factor (threads_in_block : ℕ) : ℚ :=
  (threads_in_block : ℚ) /
    ((threads_in_block : ℚ) + ((WARP_SIZE - threads_in_block % WARP_SIZE : ℕ) : ℚ))

/-- The `wasted_work` count of `AutoTiler.get_work_efficiency` (tile.py lines
749-756): lanes idle during the two reduction stages when the tile row extents
do not divide evenly by `threads_per_cell`. -/
def wasted_work (a : AutoTiler) (c : TilingConfiguration) : ℕ :=
  let threads_per_cell := c.nthreads_per_cell
  let t1_r := c.matvec1_row_tile_length
  let t2_r := c.matvec2_row_tile_length
  a.nbasis * ((t1_r % threads_per_cell) * (a.nquad / t1_r)
    + ((a.nquad % t1_r) % threads_per_cell))
  + a.nquad * ((t2_r % threads_per_cell) * (a.nbasis / t2_r)
    + ((a.nbasis % t2_r) % threads_per_cell))

/-- `AutoTiler.get_work_efficiency` (tile.py lines 736-764):
`warp_mismatch_factor * (1 - wasted_work / (2*nquad*nbasis))`. -/
def get_work_efficiency (a : AutoTiler) (c : TilingConfiguration) : ℚ :=
  warp_mismatch_factor (c.nthreads_per_cell * c.ncells_per_block) *
    (1 - (wasted_work a c : ℚ) / ((2 : ℚ) * (a.nquad : ℚ) * (a.nbasis : ℚ)))

/-- `AutoTiler.actual_warps_per_sm` (tile.py lines 766-773). -/
def actual_warps_per_sm (a : AutoTiler) (c : TilingConfiguration) : ℚ :=
  theoretical_warps_per_sm a c * get_work_efficiency a c

/-- `AutoTiler.estimated_exec_time` (tile.py lines 775-795).  `float("inf")`
is modelled as `none`; otherwise the result is
`n_lb / ((n_w * 32) / (n_t * n_c))`. -/
def estimated_exec_time (a : AutoTiler) (c : TilingConfiguration) : Option ℚ :=
  let n_w := actual_warps_per_sm a c
  if n_w = 0 then none
  else
    let n_lb : ℕ := get_local_barriers a c.matvec1_row_tile_length
      c.matvec1_col_tile_length c.matvec2_row_tile_length c.matvec2_col_tile_length
    some ((n_lb : ℚ) /
      ((n_w * 32) / ((c.nthreads_per_cell * c.ncells_per_block : ℕ) : ℚ)))

/-- Strict comparison of (possibly infinite) execution-time estimates, as the
Python float `<` behaves on values that may be `float("inf")` (`none`). -/
def opt_lt : Option ℚ → Option ℚ → Bool
  | some x, some y => decide (x < y)
  | some _, none => true
  | none, _ => false

/-- Non-strict comparison of estimates with `none` (`float("inf")`) as top. -/
def opt_le : Option ℚ → Option ℚ → Bool
  | none, none => true
  | none, some _ => false
  | some _, none => true
  | some x, some y => decide (x ≤ y)

/-- The `threads_to_cells` table of `AutoTiler.get_candiate_configs` (tile.py
lines 799-807), in Python 3.7+ dict insertion/iteration order. -/
def threads_to_cells : List (ℕ × List ℕ) :=
  [(9, [7]), (8, [4, 8, 16]), (7, [9]), (4, [8, 16]), (3, [21]),
   (2, [16, 32, 64]), (1, [32, 64])]

/-- The `TilingConfiguration` built throughout `get_candiate_configs` (tile.py
lines 831-839): the staging flags are always the literal pattern
`False, False, True, True, False, False`. -/
def default_flags (cells threads : ℕ) (t : ℕ × ℕ × ℕ × ℕ) : TilingConfiguration :=
  ⟨cells, threads, t.1, t.2.1, t.2.2.1, t.2.2.2, false, false, true, true, false, false⟩

/-- The quadruple enumeration in `get_candiate_configs` (tile.py lines
809-820): nested loops `i, j, k, l` over `range(1, ceil(sqrt(extent))+1)`,
retaining quadruples with `abs(t1_r*t1_c - t2_r*t2_c)/max(t1_r*t1_c, t2_c*t2_r)
< 0.2`. -/
def candidate_tiles (a : AutoTiler) : List (ℕ × ℕ × ℕ × ℕ) :=
  (List.range' 1 (csqrt a.nbasis)).flatMap (fun i =>
    let t1_c := cdiv a.nbasis i
    (List.range' 1 (csqrt a.nquad)).flatMap (fun j =>
      let t1_r := cdiv a.nquad j
      (List.range' 1 (csqrt a.nbasis)).flatMap (fun k =>
        let t2_r := cdiv a.nbasis k
        (List.range' 1 (csqrt a.nquad)).filterMap (fun l =>
          let t2_c := cdiv a.nquad l
          if (((t1_r * t1_c : ℤ) - (t2_r * t2_c : ℤ)).natAbs : ℚ) /
              ((max (t1_r * t1_c) (t2_c * t2_r) : ℕ) : ℚ) < 1 / 5
          then some (t1_r, t1_c, t2_r, t2_c) else none))))

/-- Sorting key relation for `tiles.sort(key=lambda T:
self.get_local_barriers(*T))` (tile.py line 823). -/
def barriers_le (a : AutoTiler) (t u : ℕ × ℕ × ℕ × ℕ) : Prop :=
  get_local_barriers a t.1 t.2.1 t.2.2.1 t.2.2.2 ≤ get_local_barriers a u.1 u.2.1 u.2.2.1 u.2.2.2

instance (a : AutoTiler) : DecidableRel (barriers_le a) := fun t u => by
  unfold barriers_le; infer_instance

/-- `tiles` after the stable ascending sort by `get_local_barriers`. -/
def sorted_tiles (a : AutoTiler) : List (ℕ × ℕ × ℕ × ℕ) :=
  (candidate_tiles a).insertionSort (barriers_le a)

/-- The inner `best_cells` selection loop of `get_candiate_configs` (tile.py
lines 829-835): starting from the sentinel `10000`, replace the current best
whenever the candidate cell count has a strictly smaller estimate. -/
def best_cells_for (a : AutoTiler) (t : ℕ × ℕ × ℕ × ℕ) (threads : ℕ)
    (cells_list : List ℕ) : ℕ :=
  cells_list.foldl (fun best cells =>
    if opt_lt (estimated_exec_time a (default_flags cells threads t))
        (estimated_exec_time a (default_flags best threads t))
    then cells else best) 10000

/-- The `params` list of `get_candiate_configs` (tile.py lines 825-839),
before the final sort: for each surviving tile (in barrier order) and each
`threads_to_cells` entry, keep the best cell count unless the sentinel
survived. -/
def candidate_params (a : AutoTiler) : List TilingConfiguration :=
  (sorted_tiles a).flatMap (fun t =>
    threads_to_cells.filterMap (fun tc =>
      let best := best_cells_for a t tc.1 tc.2
      if best ≠ 10000 then some (default_flags best tc.1 t) else none))

/-- Sorting key relation for `params.sort(key=lambda P:
self.estimated_exec_time(P))` (tile.py line 842). -/
abbrev est_le (a : AutoTiler) (p q : TilingConfiguration) : Prop :=
  opt_le (estimated_exec_time a p) (estimated_exec_time a q) = true

/-- `AutoTiler.get_candiate_configs` (tile.py lines 797-844): sort `params`
ascending by `estimated_exec_time` and return the first
`num_candidate_knls`. -/
def get_candiate_configs (a : AutoTiler) : List TilingConfiguration :=
  ((candidate_params a).insertionSort (est_le a)).take a.num_candidate_knls

/-! ### `tiled_transform` (tile.py lines 260-629)

The loopy rewrite primitives invoked by `tiled_transform` are external to this
repository (the spec scopes them out as the "loop-kernel IR"); the kernel is
therefore modelled as an opaque value carrying the trace of rewrite steps
applied to it, and each `lp.*` call is modelled as total (it appends its step
to the trace).  Metadata-derived string arguments (iname names etc.) are
recorded schematically; the claims settled against this model concern only the
control flow of `tiled_transform`, which is independent of them.  The
extraction `work_which_should_be_done_by_passing_metadata` (lines 105-257) is
likewise modelled as total, i.e. the input kernel is assumed to satisfy every
structural assumption the source asserts — the best case for normal
completion. -/

/-- One loopy rewrite step invoked by `tiled_transform`, in source order. -/
inductive LoopTransformStep
  | tag_stages
  | privatize_with_inames (iname : String)
  | make_eval_temps_local
  | duplicate_inames (iname within newIname : String)
  | hoist_constants_to_global_args
  | fuse_loop_domains
  | remove_unused_axes_in_temporaries
  | remove_noop_instructions
  | split_iname (iname : String) (factor : ℕ) (outer inner : String)
  | rename_iname (src dst : String)
deriving DecidableEq

/-- Opaque loop kernel: the initial kernel id plus the trace of rewrite steps
applied so far. -/
structure LoopKernel where
  kernel_id : ℕ
  trace : List LoopTransformStep
deriving DecidableEq

/-- Apply one (externally provided, assumed successful) rewrite step. -/
def LoopKernel.apply (k : LoopKernel) (s : LoopTransformStep) : LoopKernel :=
  ⟨k.kernel_id, k.trace ++ [s]⟩

/-- Python exceptions that `tiled_transform` itself can raise. -/
inductive PyErr
  | nameError (name : String)
  | notImplementedError (msg : String)
deriving DecidableEq

/-- Model of `tiled_transform(kernel, callables_table, tiling_config)`
(tile.py lines 260-629).

The source executes, in order: metadata extraction and stage tagging (line
273), privatization of the evaluation temporaries and their promotion to
shared memory (lines 290-299), duplication of the quadrature iname for the two
stages (lines 302-305), promotion of constant initializers to global kernel
arguments (lines 311-317), domain fusion, removal of unused axes and of no-op
instructions (lines 321-331), the block split of the cell loop (line 336),
privatization over `icell` (line 339) and the rename of the scatter iname
(lines 347-348).

Line 349 then evaluates `lp.rename_iname(kernel, input_basis_coeff_temp,
basis_iname_in_basis_redn, True)`.  Neither `input_basis_coeff_temp` nor
`basis_iname_in_basis_redn` is defined anywhere in the module (they are not
parameters, not assigned, and not imported), so CPython raises
`NameError: name 'input_basis_coeff_temp' is not defined` on every call,
whatever the inputs.  (Even if every such name were defined, the unconditional
`raise NotImplementedError(...)` at line 582 sits before the `return` at line
629, so the function could still never return normally.)  The model therefore
reaches this point and produces the error. -/
def tiled_transform (kernel : LoopKernel) (callables_table : Unit)
    (tiling_config : TilingConfiguration) : Except PyErr (LoopKernel × List ℕ) :=
  let nc := tiling_config.ncells_per_block
  let kernel := kernel.apply .tag_stages
  let kernel := kernel.apply (.privatize_with_inames "form_ip")
  let kernel := kernel.apply .make_eval_temps_local
  let kernel := kernel.apply (.duplicate_inames "form_ip" "tag:quadrature" "form_ip_quad")
  let kernel := kernel.apply (.duplicate_inames "form_ip" "tag:basis" "form_ip_basis")
  let kernel := kernel.apply .hoist_constants_to_global_args
  let kernel := kernel.apply .fuse_loop_domains
  let kernel := kernel.apply .remove_unused_axes_in_temporaries
  let kernel := kernel.apply .remove_noop_instructions
  let kernel := kernel.apply (.split_iname "n" nc "iblock" "icell")
  let kernel := kernel.apply (.privatize_with_inames "icell")
  let kernel := kernel.apply (.rename_iname "scatter_iname" "doF_iname_in_basis_stage")
  -- tile.py line 349: `input_basis_coeff_temp` is an undefined name
  .error (.nameError "input_basis_coeff_temp")

/-! ### `AutoTiler.__call__` (tile.py lines 853-916)

The measurement loop is modelled as the sequence of device-level events it
issues.  Lines 860-871 build `copied_args` once, before the candidate loop:
`args[:2]` (the launch range) followed, for each trailing kernel argument, by
a freshly allocated device copy if the kernel writes that argument and by the
caller's buffer unchanged otherwise.  The loop over
`self.get_candiate_configs()` (lines 875-908) then transforms, compiles and
launches each candidate `nrounds = 15` times, reusing `copied_args` verbatim
on every launch; no further copies of kernel-written buffers are made inside
the loop. -/

/-- A device buffer, identified by an allocation id. -/
structure DeviceBuffer where
  id : ℕ
deriving DecidableEq

/-- Device-level events issued by `AutoTiler.__call__`. -/
inductive TuneEvent
  | alloc_write_copy (argIndex : ℕ)
  | build (candidate : ℕ)
  | launch (candidate round : ℕ)
deriving DecidableEq

/-- Whether an event is the defensive copy of a kernel-written buffer. -/
def is_copy_event : TuneEvent → Bool
  | .alloc_write_copy _ => true
  | _ => false

/-- Events of the copy phase (tile.py lines 860-871): one
`mem_alloc`/`memcpy_dtod` per trailing argument the kernel writes. -/
def copy_phase_events : List Bool → ℕ → List TuneEvent
  | [], _ => []
  | w :: ws, i =>
      (if w then [TuneEvent.alloc_write_copy i] else []) ++ copy_phase_events ws (i + 1)

/-- The `copied_args` tuple past the two range arguments (tile.py lines
860-871): written arguments are replaced by fresh buffers, read-only
arguments are passed through unmodified. -/
def copied_args_tail : List (DeviceBuffer × Bool) → ℕ → (ℕ → DeviceBuffer) →
    List DeviceBuffer
  | [], _, _ => []
  | (b, w) :: rest, i, fresh =>
      (if w then fresh i else b) :: copied_args_tail rest (i + 1) fresh

/-- Events of one candidate's measurement (tile.py lines 875-903): transform
and build, then `nrounds` launches on the shared `copied_args`. -/
def candidate_events (candidate nrounds : ℕ) : List TuneEvent :=
  TuneEvent.build candidate ::
    (List.range nrounds).map (fun r => TuneEvent.launch candidate r)

/-- The full event trace of `AutoTiler.__call__` over `ncandidates`
shortlisted configurations (`written` lists, per trailing kernel argument,
whether the kernel writes it; `nrounds = 15` in the source). -/
def auto_tiler_call_events (written : List Bool) (ncandidates : ℕ) : List TuneEvent :=
  copy_phase_events written 0 ++
    (List.range ncandidates).flatMap (fun c => candidate_events c 15)

/-! ### Helper lemmas -/

theorem cdiv_le_iff {d : ℕ} (n k : ℕ) (hd : 0 < d) : cdiv n d ≤ k ↔ n ≤ k * d := by
  unfold cdiv
  rw [Nat.div_le_iff_le_mul_add_pred hd, Nat.mul_comm d k]
  omega

theorem le_cdiv_mul {d : ℕ} (n : ℕ) (hd : 0 < d) : n ≤ cdiv n d * d :=
  (cdiv_le_iff n (cdiv n d) hd).mp le_rfl

/-- `cdiv` is non-increasing in the denominator. -/
theorem cdiv_anti {d e : ℕ} (n : ℕ) (hd : 0 < d) (hde : d ≤ e) : cdiv n e ≤ cdiv n d :=
  (cdiv_le_iff n (cdiv n d) (lt_of_lt_of_le hd hde)).mpr
    (le_trans (le_cdiv_mul n hd) (Nat.mul_le_mul_left _ hde))

/-- `cdiv` agrees with the exact rational ceiling. -/
theorem cdiv_cast_eq_ceil {d : ℕ} (n : ℕ) (hd : 0 < d) :
    (cdiv n d : ℤ) = ⌈(n : ℚ) / (d : ℚ)⌉ := by
  have hdq : (0 : ℚ) < (d : ℚ) := by exact_mod_cast hd
  symm
  rw [Int.ceil_eq_iff]
  constructor
  · rcases Nat.eq_zero_or_pos (cdiv n d) with h0 | hpos
    · rw [h0]
      push_cast
      have hnn : (0 : ℚ) ≤ (n : ℚ) / (d : ℚ) := div_nonneg (Nat.cast_nonneg n) (le_of_lt hdq)
      linarith
    · obtain ⟨c, hc⟩ : ∃ c, cdiv n d = c + 1 := ⟨cdiv n d - 1, by omega⟩
      have h2 : ¬ (n ≤ c * d) := by
        intro hle
        have := (cdiv_le_iff n c hd).mpr hle
        omega
      have h3 : (c * d : ℕ) < n := Nat.lt_of_not_le h2
      rw [hc]
      push_cast
      have hq : ((c : ℚ) * (d : ℚ)) < (n : ℚ) := by exact_mod_cast h3
      rw [show ((c : ℚ) + 1 - 1) = (c : ℚ) by ring, lt_div_iff₀ hdq]
      exact hq
  · rw [div_le_iff₀ hdq]
    exact_mod_cast le_cdiv_mul n hd

/-- Per-stage wasted-work term is at most the full row extent. -/
theorem mod_mul_div_add_le (x r n : ℕ) : (r % n) * (x / r) + ((x % r) % n) ≤ x := by
  have h1 : r % n ≤ r := Nat.mod_le r n
  have h2 : x % r % n ≤ x % r := Nat.mod_le _ n
  have h3 : r * (x / r) + x % r = x := Nat.div_add_mod x r
  have h4 : (r % n) * (x / r) ≤ r * (x / r) := Nat.mul_le_mul_right _ h1
  omega

/-- The wasted-work count never exceeds the total reduction work. -/
theorem wasted_work_le (a : AutoTiler) (c : TilingConfiguration) :
    wasted_work a c ≤ 2 * (a.nquad * a.nbasis) :=
  calc wasted_work a c
      ≤ a.nbasis * a.nquad + a.nquad * a.nbasis :=
        Nat.add_le_add
          (Nat.mul_le_mul_left _ (mod_mul_div_add_le a.nquad c.matvec1_row_tile_length
            c.nthreads_per_cell))
          (Nat.mul_le_mul_left _ (mod_mul_div_add_le a.nbasis c.matvec2_row_tile_length
            c.nthreads_per_cell))
    _ = 2 * (a.nquad * a.nbasis) := by ring

/-- The warp-fill ratio always lies in `[0, 1]` (its denominator strictly
exceeds its numerator because the padding term is at least 1). -/
theorem warp_mismatch_factor_bounds (t : ℕ) :
    0 ≤ warp_mismatch_factor t ∧ warp_mismatch_factor t ≤ 1 := by
  unfold warp_mismatch_factor WARP_SIZE
  have hpad : 1 ≤ 32 - t % 32 := by
    have h : t % 32 < 32 := Nat.mod_lt t (by norm_num)
    omega
  have hpadq : (1 : ℚ) ≤ ((32 - t % 32 : ℕ) : ℚ) := by exact_mod_cast hpad
  have htq : (0 : ℚ) ≤ (t : ℚ) := Nat.cast_nonneg t
  have hd : (0 : ℚ) < (t : ℚ) + ((32 - t % 32 : ℕ) : ℚ) := by linarith
  refine ⟨div_nonneg htq (le_of_lt hd), ?_⟩
  rw [div_le_one hd]
  linarith

theorem opt_le_total (x y : Option ℚ) : opt_le x y = true ∨ opt_le y x = true := by
  cases x <;> cases y <;> simp [opt_le] <;> exact le_total _ _

theorem opt_le_trans {x y z : Option ℚ} (h1 : opt_le x y = true) (h2 : opt_le y z = true) :
    opt_le x z = true := by
  cases x <;> cases y <;> cases z <;> simp [opt_le] at * <;> exact le_trans h1 h2

instance (a : AutoTiler) : IsTotal TilingConfiguration (est_le a) :=
  ⟨fun _ _ => opt_le_total _ _⟩

instance (a : AutoTiler) : IsTrans TilingConfiguration (est_le a) :=
  ⟨fun _ _ _ => opt_le_trans⟩

/-- The copy phase performs exactly one allocation per kernel-written
argument. -/
theorem copy_phase_events_count (written : List Bool) :
    ∀ i, (copy_phase_events written i).countP is_copy_event = written.count true := by
  induction written with
  | nil => intro i; rfl
  | cons w ws ih =>
      intro i
      cases w <;>
        simp [copy_phase_events, List.countP_append, ih, is_copy_event, List.count_cons]

/-- The candidate measurement loop performs no buffer copies at all. -/
theorem candidate_loop_no_copies (ncand : ℕ) :
    ((List.range ncand).flatMap (fun c => candidate_events c 15)).countP is_copy_event = 0 := by
  rw [List.countP_eq_zero]
  intro e he
  rw [List.mem_flatMap] at he
  obtain ⟨c, _, hec⟩ := he
  rw [candidate_events, List.mem_cons] at hec
  rcases hec with h | h
  · rw [h]
    simp [is_copy_event]
  · rw [List.mem_map] at h
    obtain ⟨r, _, hr⟩ := h
    rw [← hr]
    simp [is_copy_event]

/-- Read-only arguments are passed through `copied_args` unmodified. -/
theorem copied_args_tail_read_only (args2 : List (DeviceBuffer × Bool)) :
    ∀ i fresh, List.Forall₂ (fun p q => p.2 = false → q = p.1) args2
      (copied_args_tail args2 i fresh) := by
  induction args2 with
  | nil => intro i fresh; exact List.Forall₂.nil
  | cons p rest ih =>
      intro i fresh
      refine List.Forall₂.cons ?_ (ih (i + 1) fresh)
      intro hw
      simp [copied_args_tail, hw]

/-! ### Claim theorems -/

/-- C1: the claim states that for every input `tiled_transform` completes
normally and returns a pair `(kernel, extraConstantArgs)`.  In fact every call
raises: line 349 of tile.py evaluates the undefined name
`input_basis_coeff_temp` (a `NameError`), and even past that point the
unconditional `raise NotImplementedError` at line 582 precedes the only
`return`.  The model — in which every external loopy rewrite and the metadata
extraction are assumed to succeed, the best case for the claim — still
produces an error on every input. -/
theorem tiled_transform_always_raises (k : LoopKernel) (ct : Unit)
    (c : TilingConfiguration) :
    tiled_transform k ct c = Except.error (PyErr.nameError "input_basis_coeff_temp") := rfl

/-- C2 counterexample: constructing a `TilingConfiguration` with
`ncells_per_block = 0` — an invalid (non-positive) dimension per the claim —
succeeds and records the zero verbatim, instead of failing with a
`ConfigurationError`. -/
theorem tiling_configuration_init_accepts_invalid :
    TilingConfiguration.init 0 1 1 1 1 1 false false true true false false =
      Except.ok ⟨0, 1, 1, 1, 1, 1, false, false, true, true, false, false⟩ := rfl

/-- C2 (corrected): `TilingConfiguration.__init__` performs no validation at
all: for every combination of field values (including non-positive
dimensions) construction succeeds and stores the fields verbatim. -/
theorem tiling_configuration_init_no_validation (nc nt t1_r t1_c t2_r t2_c : ℕ)
    (lcoords linput lmats lqw tpi tpqw : Bool) :
    TilingConfiguration.init nc nt t1_r t1_c t2_r t2_c lcoords linput lmats lqw tpi tpqw =
      Except.ok ⟨nc, nt, t1_r, t1_c, t2_r, t2_c, lcoords, linput, lmats, lqw, tpi, tpqw⟩ := rfl

/-- C3 counterexample: with one kernel-written buffer and two shortlisted
candidates, the `AutoTiler.__call__` trace contains exactly one defensive copy
allocation — not the two (one per candidate) the claim requires. -/
theorem auto_tiler_copies_not_per_candidate :
    (auto_tiler_call_events [true, false] 2).countP is_copy_event = 1 ∧
    (auto_tiler_call_events [true, false] 2).countP is_copy_event ≠
      2 * ([true, false] : List Bool).count true := by
  constructor <;> decide

/-- C3 (corrected): `AutoTiler.__call__` allocates a fresh copy of each
kernel-written device buffer exactly once per tuning run, before the first
candidate's measurement rounds; the candidate loop itself performs no copies
(all candidates share the same copied buffers), and read-only buffers are
passed through to `copied_args` unmodified. -/
theorem auto_tiler_copies_once_per_run (written : List Bool) (ncand : ℕ)
    (args2 : List (DeviceBuffer × Bool)) (fresh : ℕ → DeviceBuffer) :
    (auto_tiler_call_events written ncand).countP is_copy_event = written.count true ∧
    ((List.range ncand).flatMap (fun c => candidate_events c 15)).countP is_copy_event = 0 ∧
    List.Forall₂ (fun p q => p.2 = false → q = p.1) args2 (copied_args_tail args2 0 fresh) := by
  refine ⟨?_, candidate_loop_no_copies ncand, copied_args_tail_read_only args2 0 fresh⟩
  rw [auto_tiler_call_events, List.countP_append, copy_phase_events_count,
    candidate_loop_no_copies]
  exact Nat.add_zero _

/-- C4: for positive tile lengths, `get_local_barriers` equals the exact
ceiling formula
`⌈nquad/t1_r⌉*⌈nbasis/t1_c⌉ + ⌈nbasis/t2_r⌉*⌈nquad/t2_c⌉`
(the claim's particular instance `nquad=6, nbasis=3, tiles (6,3,3,6) ↦ 2` is
checked in the witness). -/
theorem get_local_barriers_ceil_formula (a : AutoTiler) (t1_r t1_c t2_r t2_c : ℕ)
    (h1 : 0 < t1_r) (h2 : 0 < t1_c) (h3 : 0 < t2_r) (h4 : 0 < t2_c) :
    (get_local_barriers a t1_r t1_c t2_r t2_c : ℤ) =
      ⌈(a.nquad : ℚ) / (t1_r : ℚ)⌉ * ⌈(a.nbasis : ℚ) / (t1_c : ℚ)⌉
        + ⌈(a.nbasis : ℚ) / (t2_r : ℚ)⌉ * ⌈(a.nquad : ℚ) / (t2_c : ℚ)⌉ := by
  unfold get_local_barriers
  push_cast
  rw [cdiv_cast_eq_ceil _ h1, cdiv_cast_eq_ceil _ h2, cdiv_cast_eq_ceil _ h3,
    cdiv_cast_eq_ceil _ h4]

/-- C4 witness: the formula at `nquad = 6, nbasis = 3`, tiles `(6,3,3,6)`,
together with the claim's example value `2`. -/
theorem get_local_barriers_ceil_formula_witness :
    0 < 6 ∧ 0 < 3 ∧
      ((get_local_barriers ⟨3, 6, 2, 1, 5⟩ 6 3 3 6 : ℤ) =
        ⌈(((⟨3, 6, 2, 1, 5⟩ : AutoTiler).nquad : ℕ) : ℚ) / ((6 : ℕ) : ℚ)⌉ *
            ⌈(((⟨3, 6, 2, 1, 5⟩ : AutoTiler).nbasis : ℕ) : ℚ) / ((3 : ℕ) : ℚ)⌉
          + ⌈(((⟨3, 6, 2, 1, 5⟩ : AutoTiler).nbasis : ℕ) : ℚ) / ((3 : ℕ) : ℚ)⌉ *
            ⌈(((⟨3, 6, 2, 1, 5⟩ : AutoTiler).nquad : ℕ) : ℚ) / ((6 : ℕ) : ℚ)⌉) ∧
      get_local_barriers ⟨3, 6, 2, 1, 5⟩ 6 3 3 6 = 2 :=
  ⟨by norm_num, by norm_num,
    get_local_barriers_ceil_formula ⟨3, 6, 2, 1, 5⟩ 6 3 3 6 (by norm_num) (by norm_num)
      (by norm_num) (by norm_num),
    by norm_num [get_local_barriers, cdiv]⟩

/-- C5: the claim (and the docstring intent of `get_work_efficiency`, which
attributes inefficiency to block sizes that are *not* warp multiples) says the
warp-fill ratio at `threadsPerCell = 32, cellsPerBlock = 1` is `1`.  The code
computes `32 / (32 + (32 - 32 % 32)) = 32 / 64 = 1/2`: the padding term
`WARP_SIZE - threads_in_block % WARP_SIZE` is `32` rather than `0` on exact
warp multiples, so a perfectly warp-aligned block is charged 50% waste. -/
theorem warp_mismatch_factor_full_warp_is_half :
    warp_mismatch_factor (32 * 1) = 1 / 2 ∧ warp_mismatch_factor (32 * 1) ≠ 1 := by
  constructor <;> norm_num [warp_mismatch_factor, WARP_SIZE]

/-- C6 counterexample: at `nquad = 6, nbasis = 3` and the configuration with
`ncells_per_block = 1, nthreads_per_cell = 7` and positive tiles `(6,3,3,6)` —
which satisfies every hypothesis of the claim — `get_work_efficiency` returns
exactly `0`, contradicting the claimed strict lower bound `0 <`. -/
theorem get_work_efficiency_zero_at_valid_config :
    get_work_efficiency ⟨3, 6, 2, 1, 5⟩
        ⟨1, 7, 6, 3, 3, 6, false, false, true, true, false, false⟩ = 0 ∧
    ¬ (0 < get_work_efficiency ⟨3, 6, 2, 1, 5⟩
        ⟨1, 7, 6, 3, 3, 6, false, false, true, true, false, false⟩) := by
  have h : get_work_efficiency ⟨3, 6, 2, 1, 5⟩
      ⟨1, 7, 6, 3, 3, 6, false, false, true, true, false, false⟩ = 0 := by
    norm_num [get_work_efficiency, wasted_work, warp_mismatch_factor, WARP_SIZE]
  exact ⟨h, by rw [h]; exact lt_irrefl 0⟩

/-- C6 (corrected): for every configuration with `nthreads_per_cell ≥ 1`,
`ncells_per_block ≥ 1` and positive tile lengths, `get_work_efficiency` lies
in `[0, 1]` — the lower bound is attained (see the counterexample), so the
claimed open bound `(0, 1]` must be weakened to `0 ≤`. -/
theorem get_work_efficiency_bounds (a : AutoTiler) (c : TilingConfiguration)
    (h1 : 1 ≤ c.nthreads_per_cell) (h2 : 1 ≤ c.ncells_per_block)
    (h3 : 1 ≤ c.matvec1_row_tile_length) (h4 : 1 ≤ c.matvec1_col_tile_length)
    (h5 : 1 ≤ c.matvec2_row_tile_length) (h6 : 1 ≤ c.matvec2_col_tile_length) :
    0 ≤ get_work_efficiency a c ∧ get_work_efficiency a c ≤ 1 := by
  unfold get_work_efficiency
  obtain ⟨hw0, hw1⟩ := warp_mismatch_factor_bounds (c.nthreads_per_cell * c.ncells_per_block)
  have hfrac : 0 ≤ (wasted_work a c : ℚ) / ((2 : ℚ) * (a.nquad : ℚ) * (a.nbasis : ℚ)) ∧
      (wasted_work a c : ℚ) / ((2 : ℚ) * (a.nquad : ℚ) * (a.nbasis : ℚ)) ≤ 1 := by
    have hd0 : (0 : ℚ) ≤ (2 : ℚ) * (a.nquad : ℚ) * (a.nbasis : ℚ) := by positivity
    refine ⟨div_nonneg (Nat.cast_nonneg _) hd0, ?_⟩
    rcases eq_or_lt_of_le hd0 with hz | hpos
    · rw [← hz, div_zero]
      norm_num
    · rw [div_le_one hpos]
      have hle := wasted_work_le a c
      have hcast : ((wasted_work a c : ℕ) : ℚ) ≤ ((2 * (a.nquad * a.nbasis) : ℕ) : ℚ) := by
        exact_mod_cast hle
      push_cast at hcast
      linarith
  constructor
  · exact mul_nonneg hw0 (by linarith [hfrac.2])
  · exact mul_le_one₀ hw1 (by linarith [hfrac.2]) (by linarith [hfrac.1])

/-- C6 witness: the bounds applied at `nquad = 6, nbasis = 3` and the
configuration `(32 cells, 1 thread, tiles (6,3,3,6))`. -/
theorem get_work_efficiency_bounds_witness :
    1 ≤ (⟨32, 1, 6, 3, 3, 6, false, false, true, true, false, false⟩ :
        TilingConfiguration).nthreads_per_cell ∧
    1 ≤ (⟨32, 1, 6, 3, 3, 6, false, false, true, true, false, false⟩ :
        TilingConfiguration).ncells_per_block ∧
    (0 ≤ get_work_efficiency ⟨3, 6, 2, 1, 5⟩
        ⟨32, 1, 6, 3, 3, 6, false, false, true, true, false, false⟩ ∧
      get_work_efficiency ⟨3, 6, 2, 1, 5⟩
        ⟨32, 1, 6, 3, 3, 6, false, false, true, true, false, false⟩ ≤ 1) :=
  ⟨by decide, by decide,
    get_work_efficiency_bounds ⟨3, 6, 2, 1, 5⟩
      ⟨32, 1, 6, 3, 3, 6, false, false, true, true, false, false⟩
      (by decide) (by decide) (by decide) (by decide) (by decide) (by decide)⟩

/-- C7: for positive arguments, `get_local_barriers` is non-increasing in
each tile dimension separately: growing any one of `t1_r, t1_c, t2_r, t2_c`
while holding the other three fixed never increases the barrier count. -/
theorem get_local_barriers_nonincreasing (a : AutoTiler) (t1_r t1_c t2_r t2_c : ℕ)
    (h1 : 0 < t1_r) (h2 : 0 < t1_c) (h3 : 0 < t2_r) (h4 : 0 < t2_c) :
    (∀ t, t1_r ≤ t →
      get_local_barriers a t t1_c t2_r t2_c ≤ get_local_barriers a t1_r t1_c t2_r t2_c) ∧
    (∀ t, t1_c ≤ t →
      get_local_barriers a t1_r t t2_r t2_c ≤ get_local_barriers a t1_r t1_c t2_r t2_c) ∧
    (∀ t, t2_r ≤ t →
      get_local_barriers a t1_r t1_c t t2_c ≤ get_local_barriers a t1_r t1_c t2_r t2_c) ∧
    (∀ t, t2_c ≤ t →
      get_local_barriers a t1_r t1_c t2_r t ≤ get_local_barriers a t1_r t1_c t2_r t2_c) := by
  unfold get_local_barriers
  refine ⟨fun t ht => ?_, fun t ht => ?_, fun t ht => ?_, fun t ht => ?_⟩
  · exact Nat.add_le_add (Nat.mul_le_mul_right _ (cdiv_anti _ h1 ht)) le_rfl
  · exact Nat.add_le_add (Nat.mul_le_mul_left _ (cdiv_anti _ h2 ht)) le_rfl
  · exact Nat.add_le_add le_rfl (Nat.mul_le_mul_right _ (cdiv_anti _ h3 ht))
  · exact Nat.add_le_add le_rfl (Nat.mul_le_mul_left _ (cdiv_anti _ h4 ht))

/-- C7 witness: at `nquad = 6, nbasis = 3`, growing `t1_r` from `3` to its
full extent `6` does not increase the barrier count. -/
theorem get_local_barriers_nonincreasing_witness :
    0 < 3 ∧ 3 ≤ 6 ∧
      get_local_barriers ⟨3, 6, 2, 1, 5⟩ 6 3 3 3 ≤ get_local_barriers ⟨3, 6, 2, 1, 5⟩ 3 3 3 3 :=
  ⟨by decide, by decide,
    (get_local_barriers_nonincreasing ⟨3, 6, 2, 1, 5⟩ 3 3 3 3 (by decide) (by decide)
      (by decide) (by decide)).1 6 (by decide)⟩

/-- C8: `estimated_exec_time` is `+∞` (`none`) exactly when the effective
occupancy `theoretical_warps_per_sm * get_work_efficiency` is zero; otherwise
it is the local-barrier count divided by the effective-resident-block count
`(occupancy * 32) / (nthreads_per_cell * ncells_per_block)` derived from that
occupancy. -/
theorem estimated_exec_time_inf_iff_zero_occupancy (a : AutoTiler) (c : TilingConfiguration)
    (hq : 0 < a.nquad) (ht : 0 < c.nthreads_per_cell) (hc : 0 < c.ncells_per_block) :
    (estimated_exec_time a c = none ↔
      theoretical_warps_per_sm a c * get_work_efficiency a c = 0) ∧
    (theoretical_warps_per_sm a c * get_work_efficiency a c ≠ 0 →
      estimated_exec_time a c =
        some ((get_local_barriers a c.matvec1_row_tile_length c.matvec1_col_tile_length
            c.matvec2_row_tile_length c.matvec2_col_tile_length : ℚ) /
          ((theoretical_warps_per_sm a c * get_work_efficiency a c * 32) /
            ((c.nthreads_per_cell * c.ncells_per_block : ℕ) : ℚ)))) := by
  simp only [estimated_exec_time, actual_warps_per_sm]
  by_cases h : theoretical_warps_per_sm a c * get_work_efficiency a c = 0
  · simp [h]
  · simp [h]

/-- C8 witness: the characterisation applied at `nquad = 6, nbasis = 3` and
the configuration `(32 cells, 1 thread, tiles (6,3,3,6))`. -/
theorem estimated_exec_time_inf_iff_zero_occupancy_witness :
    0 < (⟨3, 6, 2, 1, 5⟩ : AutoTiler).nquad ∧
    0 < (⟨32, 1, 6, 3, 3, 6, false, false, true, true, false, false⟩ :
        TilingConfiguration).nthreads_per_cell ∧
    0 < (⟨32, 1, 6, 3, 3, 6, false, false, true, true, false, false⟩ :
        TilingConfiguration).ncells_per_block ∧
    ((estimated_exec_time ⟨3, 6, 2, 1, 5⟩
        ⟨32, 1, 6, 3, 3, 6, false, false, true, true, false, false⟩ = none ↔
      theoretical_warps_per_sm ⟨3, 6, 2, 1, 5⟩
          ⟨32, 1, 6, 3, 3, 6, false, false, true, true, false, false⟩ *
        get_work_efficiency ⟨3, 6, 2, 1, 5⟩
          ⟨32, 1, 6, 3, 3, 6, false, false, true, true, false, false⟩ = 0) ∧
    (theoretical_warps_per_sm ⟨3, 6, 2, 1, 5⟩
          ⟨32, 1, 6, 3, 3, 6, false, false, true, true, false, false⟩ *
        get_work_efficiency ⟨3, 6, 2, 1, 5⟩
          ⟨32, 1, 6, 3, 3, 6, false, false, true, true, false, false⟩ ≠ 0 →
      estimated_exec_time ⟨3, 6, 2, 1, 5⟩
          ⟨32, 1, 6, 3, 3, 6, false, false, true, true, false, false⟩ =
        some ((get_local_barriers ⟨3, 6, 2, 1, 5⟩
            (⟨32, 1, 6, 3, 3, 6, false, false, true, true, false, false⟩ :
              TilingConfiguration).matvec1_row_tile_length
            (⟨32, 1, 6, 3, 3, 6, false, false, true, true, false, false⟩ :
              TilingConfiguration).matvec1_col_tile_length
            (⟨32, 1, 6, 3, 3, 6, false, false, true, true, false, false⟩ :
              TilingConfiguration).matvec2_row_tile_length
            (⟨32, 1, 6, 3, 3, 6, false, false, true, true, false, false⟩ :
              TilingConfiguration).matvec2_col_tile_length : ℚ) /
          ((theoretical_warps_per_sm ⟨3, 6, 2, 1, 5⟩
              ⟨32, 1, 6, 3, 3, 6, false, false, true, true, false, false⟩ *
            get_work_efficiency ⟨3, 6, 2, 1, 5⟩
              ⟨32, 1, 6, 3, 3, 6, false, false, true, true, false, false⟩ * 32) /
            (((⟨32, 1, 6, 3, 3, 6, false, false, true, true, false, false⟩ :
                TilingConfiguration).nthreads_per_cell *
              (⟨32, 1, 6, 3, 3, 6, false, false, true, true, false, false⟩ :
                TilingConfiguration).ncells_per_block : ℕ) : ℚ))))) :=
  ⟨by decide, by decide, by decide,
    estimated_exec_time_inf_iff_zero_occupancy ⟨3, 6, 2, 1, 5⟩
      ⟨32, 1, 6, 3, 3, 6, false, false, true, true, false, false⟩
      (by decide) (by decide) (by decide)⟩

/-- C9: the list returned by `get_candiate_configs` has length at most
`num_candidate_knls` and is sorted ascending by `estimated_exec_time` (with
`none`, i.e. `float("inf")`, as the top element of the order). -/
theorem get_candiate_configs_length_le_and_sorted (a : AutoTiler) :
    (get_candiate_configs a).length ≤ a.num_candidate_knls ∧
      List.Sorted (est_le a) (get_candiate_configs a) := by
  unfold get_candiate_configs
  refine ⟨List.length_take_le _ _, ?_⟩
  exact (List.sorted_insertionSort (est_le a) (candidate_params a)).sublist
    (List.take_sublist _ _)

/-- C10: every configuration returned by `get_candiate_configs` carries the
fixed staging-flag pattern `load_coordinates_to_shared = false,
load_input_to_shared = false, load_mats_to_shared = true,
load_quad_weights_to_shared = true, tiled_prefetch_of_inputs = false,
tiled_prefetch_of_quad_weights = false`: the search varies only the cell and
thread counts and the four tile lengths. -/
theorem get_candiate_configs_fixed_flags (a : AutoTiler) :
    (get_candiate_configs a).all (fun c =>
      !c.load_coordinates_to_shared && !c.load_input_to_shared &&
      c.load_mats_to_shared && c.load_quad_weights_to_shared &&
      !c.tiled_prefetch_of_inputs && !c.tiled_prefetch_of_quad_weights) = true := by
  rw [List.all_eq_true]
  intro c hc
  have hc1 : c ∈ (candidate_params a).insertionSort (est_le a) :=
    List.mem_of_mem_take hc
  have hc2 : c ∈ candidate_params a := (List.perm_insertionSort (est_le a) _).subset hc1
  simp only [candidate_params, List.mem_flatMap, List.mem_filterMap] at hc2
  obtain ⟨t, ht, tc, htc, heq⟩ := hc2
  by_cases hb : best_cells_for a t tc.1 tc.2 ≠ 10000
  · rw [if_pos hb] at heq
    have hcdef : default_flags (best_cells_for a t tc.1 tc.2) tc.1 t = c := Option.some.inj heq
    rw [← hcdef]
    simp [default_flags]
  · rw [if_neg hb] at heq
    exact absurd heq (by simp)
